import Mathlib

/-!
Verification of the Padé–Borel series-resummation estimator
(`pade_prediction` in `motor_calculo_teu.py`).

The estimator's arithmetic is modelled exactly, over an arbitrary field
with decidable equality; concrete evaluations instantiate the field with
the rationals.  The three ways a call can end — returning a number,
returning the NaN sentinel from the generic exception handler, or letting
a Python exception escape — are modelled by the three constructors of
`PadeOutcome`.  Two exceptions can escape, both raised before the `try`
block: the `IndexError` hit while `A_mat` / `Y_vec` are built when the
input has fewer than five elements, and the `OverflowError` raised inside
the Borel loop itself once `math.factorial(i + 1)` no longer converts to
an IEEE-754 double, which happens from the 171st element on
(`170! ≈ 7.26e306` is representable, `171! ≈ 1.24e309` is not).
-/

namespace TeuPade

variable {K : Type*} [Field K] [DecidableEq K]

/-- Outcome of a call to `pade_prediction`.
`value x` models a returned number `x`; `nan` models the `np.nan`
sentinel returned by the bare `except` around the linear solve; `raised`
models an uncaught Python exception: the `OverflowError` from the Borel
loop on inputs of 171 or more elements, or the `IndexError` that fires
while `A_mat` / `Y_vec` are built when the input list has fewer than five
elements — both happen outside the `try` block. -/
inductive PadeOutcome (K : Type*) where
  | value (x : K)
  | nan
  | raised
deriving DecidableEq

/-- The smallest natural number whose conversion to float raises
`OverflowError` in CPython: the largest finite double is
`2^1024 - 2^971`, and round-to-nearest-even sends every integer at or
above the midpoint `2^1024 - 2^970` to infinity, which `float(n)` (and
hence `c_val / n` for a float `c_val`) reports by raising rather than
returning `inf`. -/
def floatOverflowBound : Nat := 2 ^ 1024 - 2 ^ 970

/-- The Borel-transform loop of `pade_prediction`:
`for i, c_val in enumerate(coeffs_list): b.append(c_val / math.factorial(i+1))`,
with `i` carried explicitly as the running index.  The division
`c_val / math.factorial(i + 1)` first converts the factorial to float and
raises `OverflowError` (modelled by `none`) as soon as the factorial
reaches `floatOverflowBound`; otherwise the element
`c_val / (i+1)!` is appended and the loop continues.  The quotient itself
is modelled as exact field division. -/
def borelAux (i : Nat) : List K → Option (List K)
  | [] => some []
  | c :: rest =>
      if floatOverflowBound ≤ Nat.factorial (i + 1) then none
      else Option.map (fun b => c / (Nat.factorial (i + 1) : K) :: b)
        (borelAux (i + 1) rest)

/-- The list `b` built by `pade_prediction`, `b[i] = coeffs_list[i] / (i+1)!`,
or `none` when the loop raises `OverflowError`. -/
def borel (coeffs : List K) : Option (List K) := borelAux 0 coeffs

set_option maxRecDepth 2000 in
/-- Factorial arguments up to `170` convert to finite doubles:
`170! ≈ 7.26e306` is below the overflow bound. -/
theorem factorial_representable {n : Nat} (h : n ≤ 170) :
    Nat.factorial n < floatOverflowBound :=
  lt_of_le_of_lt (Nat.factorial_le h)
    (by norm_num [Nat.factorial, floatOverflowBound])

set_option maxRecDepth 2000 in
/-- From `171!` on the conversion overflows: `171! ≈ 1.24e309` is beyond
the overflow bound. -/
theorem factorial_overflows {n : Nat} (h : 171 ≤ n) :
    floatOverflowBound ≤ Nat.factorial n :=
  le_trans (by norm_num [Nat.factorial, floatOverflowBound])
    (Nat.factorial_le h)

omit [DecidableEq K] in
/-- The Borel loop over an exhausted input returns the accumulated list. -/
theorem borelAux_nil (i : Nat) : borelAux i ([] : List K) = some [] := rfl

omit [DecidableEq K] in
/-- Unfolding of one Borel-loop step. -/
theorem borelAux_cons (i : Nat) (c : K) (rest : List K) :
    borelAux i (c :: rest) =
      if floatOverflowBound ≤ Nat.factorial (i + 1) then none
      else Option.map (fun b => c / (Nat.factorial (i + 1) : K) :: b)
        (borelAux (i + 1) rest) := rfl

omit [DecidableEq K] in
/-- One Borel-loop step below the overflow threshold. -/
theorem borelAux_cons_small (i : Nat) (c : K) (rest : List K)
    (h : i + 1 ≤ 170) :
    borelAux i (c :: rest) =
      Option.map (fun b => c / (Nat.factorial (i + 1) : K) :: b)
        (borelAux (i + 1) rest) := by
  rw [borelAux_cons, if_neg (not_le.mpr (factorial_representable h))]

omit [DecidableEq K] in
/-- The Borel loop succeeds while every processed factorial argument stays
at or below `170`. -/
theorem borelAux_isSome (i : Nat) (l : List K) (h : i + l.length ≤ 170) :
    ∃ t, borelAux i l = some t := by
  induction l generalizing i with
  | nil => exact ⟨[], rfl⟩
  | cons c rest ih =>
      simp only [List.length_cons] at h
      obtain ⟨t, ht⟩ := ih (i + 1) (by omega)
      refine ⟨c / (Nat.factorial (i + 1) : K) :: t, ?_⟩
      rw [borelAux_cons_small i c rest (by omega), ht]
      rfl

omit [DecidableEq K] in
/-- The Borel loop raises when a nonempty input drives the factorial
argument past `170`. -/
theorem borelAux_eq_none (i : Nat) (l : List K) (h : 171 ≤ i + l.length)
    (hl : l ≠ []) : borelAux i l = none := by
  induction l generalizing i with
  | nil => exact absurd rfl hl
  | cons c rest ih =>
      rw [borelAux_cons]
      by_cases hc : floatOverflowBound ≤ Nat.factorial (i + 1)
      · rw [if_pos hc]
      · rw [if_neg hc]
        have hrest : rest ≠ [] := by
          rintro rfl
          simp only [List.length_cons, List.length_nil] at h
          exact hc (factorial_overflows (by omega))
        rw [ih (i + 1) (by simp only [List.length_cons] at h; omega) hrest]
        rfl

omit [DecidableEq K] in
/-- An input of 171 or more coefficients makes the Borel loop raise. -/
theorem borel_eq_none (coeffs : List K) (h : 171 ≤ coeffs.length) :
    borel coeffs = none := by
  rcases coeffs with _ | ⟨c, rest⟩
  · simp at h
  · exact borelAux_eq_none 0 (c :: rest) (by omega) (by simp)

/-- Exact-arithmetic model of `np.linalg.solve` on the 2-by-2 system
`[[a11, a12], [a21, a22]] @ x = [y1, y2]`: it raises `LinAlgError`
exactly when the matrix is singular (modelled by `none`), and otherwise
returns the unique solution, written here through Cramer ratios. -/
def solve2x2 (a11 a12 a21 a22 y1 y2 : K) : Option (K × K) :=
  if a11 * a22 - a12 * a21 = 0 then none
  else some ((y1 * a22 - a12 * y2) / (a11 * a22 - a12 * a21),
             (a11 * y2 - y1 * a21) / (a11 * a22 - a12 * a21))

/-- Shallow embedding of `pade_prediction` from `motor_calculo_teu.py`.
The source first builds `b` with the Borel loop (which raises
`OverflowError`, outside the `try`, once it meets `171!`), then forms
`A_mat = [[b[2], b[1]], [b[3], b[2]]]` and `Y_vec = [-b[3], -b[4]]` —
still outside the `try`, so a list of fewer than five elements raises
`IndexError` there — then solves the system inside a `try` whose bare
`except` returns `np.nan`, and on success returns
`-(b[4]*q1 + b[3]*q2) * math.factorial(6)`.  Both escaped exceptions are
modelled by the `raised` outcome. -/
def pade_prediction (coeffs : List K) : PadeOutcome K :=
  match borel coeffs with
  | none => PadeOutcome.raised
  | some b =>
      match b[1]?, b[2]?, b[3]?, b[4]? with
      | some b1, some b2, some b3, some b4 =>
          match solve2x2 b2 b1 b3 b2 (-b3) (-b4) with
          | some q => PadeOutcome.value (-(b4 * q.1 + b3 * q.2) *
              (Nat.factorial 6 : K))
          | none => PadeOutcome.nan
      | _, _, _, _ => PadeOutcome.raised

/-- If `(x1, x2)` solves the 2-by-2 system and the matrix is nonsingular,
the solver returns exactly `(x1, x2)`. -/
theorem solve2x2_eq_of_solves (a11 a12 a21 a22 y1 y2 x1 x2 : K)
    (hdet : a11 * a22 - a12 * a21 ≠ 0)
    (h1 : a11 * x1 + a12 * x2 = y1) (h2 : a21 * x1 + a22 * x2 = y2) :
    solve2x2 a11 a12 a21 a22 y1 y2 = some (x1, x2) := by
  have e1 : (y1 * a22 - a12 * y2) / (a11 * a22 - a12 * a21) = x1 := by
    rw [div_eq_iff hdet]
    linear_combination a12 * h2 - a22 * h1
  have e2 : (a11 * y2 - y1 * a21) / (a11 * a22 - a12 * a21) = x2 := by
    rw [div_eq_iff hdet]
    linear_combination a21 * h1 - a11 * h2
  rw [solve2x2, if_neg hdet, e1, e2]

/-- On a singular matrix the solver model fails. -/
theorem solve2x2_singular (a11 a12 a21 a22 y1 y2 : K)
    (hdet : a11 * a22 - a12 * a21 = 0) :
    solve2x2 a11 a12 a21 a22 y1 y2 = none := by
  rw [solve2x2, if_pos hdet]

/-- Unfolding of `pade_prediction` on a list of at least five and at most
170 elements when the linear solve succeeds, with the factorials evaluated
to numerals. -/
theorem pade_prediction_eq_value (c1 c2 c3 c4 c5 : K) (rest : List K)
    (q1 q2 : K) (hrest : rest.length ≤ 165)
    (h : solve2x2 (c3 / 6) (c2 / 2) (c4 / 24) (c3 / 6)
      (-(c4 / 24)) (-(c5 / 120)) = some (q1, q2)) :
    pade_prediction (c1 :: c2 :: c3 :: c4 :: c5 :: rest) =
      PadeOutcome.value (-(c5 / 120 * q1 + c4 / 24 * q2) * 720) := by
  obtain ⟨t, ht⟩ := borelAux_isSome 5 rest (by omega)
  norm_num [pade_prediction, borel, borelAux_cons_small, ht,
    Option.map_some', List.getElem?_cons_succ, List.getElem?_cons_zero,
    Nat.factorial]
  rw [h]

/-- Unfolding of `pade_prediction` on a list of at least five and at most
170 elements when the linear solve fails. -/
theorem pade_prediction_eq_nan (c1 c2 c3 c4 c5 : K) (rest : List K)
    (hrest : rest.length ≤ 165)
    (h : solve2x2 (c3 / 6) (c2 / 2) (c4 / 24) (c3 / 6)
      (-(c4 / 24)) (-(c5 / 120)) = none) :
    pade_prediction (c1 :: c2 :: c3 :: c4 :: c5 :: rest) =
      PadeOutcome.nan := by
  obtain ⟨t, ht⟩ := borelAux_isSome 5 rest (by omega)
  norm_num [pade_prediction, borel, borelAux_cons_small, ht,
    Option.map_some', List.getElem?_cons_succ, List.getElem?_cons_zero,
    Nat.factorial]
  rw [h]

/-- C1: for an input list of exactly five numbers whose Padé matrix
`[[b3, b2], [b4, b3]]` (with `b_n = c_n / n!`) is nonsingular,
`pade_prediction` returns `b6 * 720`, where `(q1, q2)` is the unique
solution of `b3*q1 + b2*q2 = -b4` and `b4*q1 + b3*q2 = -b5`, and
`b6 = -(q1*b5 + q2*b4)`. -/
theorem pade_prediction_five_exact (c1 c2 c3 c4 c5 q1 q2 : K)
    (hns : c3 / 6 * (c3 / 6) - c2 / 2 * (c4 / 24) ≠ 0)
    (hq1 : c3 / 6 * q1 + c2 / 2 * q2 = -(c4 / 24))
    (hq2 : c4 / 24 * q1 + c3 / 6 * q2 = -(c5 / 120)) :
    pade_prediction [c1, c2, c3, c4, c5] =
      PadeOutcome.value (-(q1 * (c5 / 120) + q2 * (c4 / 24)) * 720) := by
  rw [pade_prediction_eq_value c1 c2 c3 c4 c5 [] q1 q2 (by norm_num)
    (solve2x2_eq_of_solves _ _ _ _ _ _ q1 q2 hns hq1 hq2)]
  simp only [PadeOutcome.value.injEq]
  ring

/-- Witness for C1: the input `[1, 2, 3, 4, 5]` over `ℚ` has the unique
denominator solution `q1 = -1/2`, `q2 = 1/12`, and the prediction is
`-(q1*b5 + q2*b4) * 720 = 5`. -/
theorem pade_prediction_five_exact_witness :
    pade_prediction (K := ℚ) [1, 2, 3, 4, 5] =
      PadeOutcome.value (-((-(1/2) : ℚ) * ((5 : ℚ) / 120) +
        (1/12 : ℚ) * ((4 : ℚ) / 24)) * 720) :=
  pade_prediction_five_exact 1 2 3 4 5 (-(1/2)) (1/12)
    (by norm_num) (by norm_num) (by norm_num)

/-- C2: on a five-element input whose Padé matrix is exactly singular,
the failure of the linear solver is caught by the generic exception
handler and `pade_prediction` returns the NaN sentinel instead of
raising or returning a number. -/
theorem pade_prediction_singular_nan (c1 c2 c3 c4 c5 : K)
    (hs : c3 / 6 * (c3 / 6) - c2 / 2 * (c4 / 24) = 0) :
    pade_prediction [c1, c2, c3, c4, c5] = PadeOutcome.nan :=
  pade_prediction_eq_nan c1 c2 c3 c4 c5 [] (by norm_num)
    (solve2x2_singular _ _ _ _ _ _ hs)

/-- Witness for C2: with `c = [1, 2, 6, 24, 120]` every Borel coefficient
`b2..b5` equals `1`, the Toeplitz matrix is singular, and the call
returns the NaN sentinel. -/
theorem pade_prediction_singular_nan_witness :
    pade_prediction (K := ℚ) [1, 2, 6, 24, 120] = PadeOutcome.nan :=
  pade_prediction_singular_nan 1 2 6 24 120 (by norm_num)

/-- Taylor coefficients `d_k` of the rational function
`(p0 + p1*t + p2*t^2) / (1 + Q1*t + Q2*t^2)`, characterised by
`d0 = p0`, `d1 + Q1*d0 = p1`, `d2 + Q1*d1 + Q2*d0 = p2`, and the
recurrence `d_k + Q1*d_{k-1} + Q2*d_{k-2} = 0` for `k ≥ 3`. -/
def taylorCoeff (p0 p1 p2 Q1 Q2 : K) : Nat → K
  | 0 => p0
  | 1 => p1 - Q1 * p0
  | 2 => p2 - Q1 * (p1 - Q1 * p0) - Q2 * p0
  | n + 3 => -(Q1 * taylorCoeff p0 p1 p2 Q1 Q2 (n + 2) +
      Q2 * taylorCoeff p0 p1 p2 Q1 Q2 (n + 1))

/-- C3: round-trip exactness.  If the Borel coefficients `b_n = c_n / n!`
are the first five Taylor coefficients of a true `[2/2]` rational function
`(p0 + p1*t + p2*t^2) / (1 + Q1*t + Q2*t^2)` and the resulting 2-by-2
system is nonsingular, then `pade_prediction` recovers exactly the sixth
Taylor coefficient of that rational function times `6!` (exact in exact
arithmetic, hence within any relative tolerance in floating point). -/
theorem pade_prediction_rational_roundtrip (p0 p1 p2 Q1 Q2 c1 c2 c3 c4 c5 : K)
    (_hb1 : c1 / 1 = taylorCoeff p0 p1 p2 Q1 Q2 0)
    (hb2 : c2 / 2 = taylorCoeff p0 p1 p2 Q1 Q2 1)
    (hb3 : c3 / 6 = taylorCoeff p0 p1 p2 Q1 Q2 2)
    (hb4 : c4 / 24 = taylorCoeff p0 p1 p2 Q1 Q2 3)
    (hb5 : c5 / 120 = taylorCoeff p0 p1 p2 Q1 Q2 4)
    (hns : c3 / 6 * (c3 / 6) - c2 / 2 * (c4 / 24) ≠ 0) :
    pade_prediction [c1, c2, c3, c4, c5] =
      PadeOutcome.value (taylorCoeff p0 p1 p2 Q1 Q2 5 * 720) := by
  have hq1 : c3 / 6 * Q1 + c2 / 2 * Q2 = -(c4 / 24) := by
    rw [hb3, hb2, hb4]
    simp only [taylorCoeff]
    ring
  have hq2 : c4 / 24 * Q1 + c3 / 6 * Q2 = -(c5 / 120) := by
    rw [hb4, hb3, hb5]
    simp only [taylorCoeff]
    ring
  rw [pade_prediction_eq_value c1 c2 c3 c4 c5 [] Q1 Q2 (by norm_num)
    (solve2x2_eq_of_solves _ _ _ _ _ _ Q1 Q2 hns hq1 hq2)]
  simp only [PadeOutcome.value.injEq]
  rw [hb5, hb4]
  simp only [taylorCoeff]
  ring

/-- Witness for C3: the rational function `1 / (1 + t + t^2)` has Taylor
coefficients `1, -1, 0, 1, -1, 0, ...`; the matching input series is
`c = [1, -2, 0, 24, -120]` and the system is nonsingular. -/
theorem pade_prediction_rational_roundtrip_witness :
    pade_prediction (K := ℚ) [1, -2, 0, 24, -120] =
      PadeOutcome.value (taylorCoeff (K := ℚ) 1 0 0 1 1 5 * 720) :=
  pade_prediction_rational_roundtrip 1 0 0 1 1 1 (-2) 0 24 (-120)
    (by norm_num [taylorCoeff]) (by norm_num [taylorCoeff])
    (by norm_num [taylorCoeff]) (by norm_num [taylorCoeff])
    (by norm_num [taylorCoeff]) (by norm_num)

/-- Whatever pair the solver returns does solve the system. -/
theorem solve2x2_solves (a11 a12 a21 a22 y1 y2 x1 x2 : K)
    (h : solve2x2 a11 a12 a21 a22 y1 y2 = some (x1, x2)) :
    a11 * x1 + a12 * x2 = y1 ∧ a21 * x1 + a22 * x2 = y2 := by
  by_cases hdet : a11 * a22 - a12 * a21 = 0
  · rw [solve2x2, if_pos hdet] at h
    exact absurd h (by simp)
  · rw [solve2x2, if_neg hdet, Option.some.injEq, Prod.mk.injEq] at h
    obtain ⟨e1, e2⟩ := h
    subst e1
    subst e2
    constructor
    · field_simp
      ring
    · field_simp
      ring

/-- C4: first-order homogeneity.  Scaling the whole input series by a
nonzero constant `k` scales the returned estimate by `k`: the denominator
coefficients `q1, q2` solve a system whose matrix and right-hand side both
scale linearly, so they are unchanged, and the recurrence output is linear
in the Borel coefficients. -/
theorem pade_prediction_scale_invariance (k c1 c2 c3 c4 c5 v : K) (hk : k ≠ 0)
    (hns : c3 / 6 * (c3 / 6) - c2 / 2 * (c4 / 24) ≠ 0)
    (hv : pade_prediction [c1, c2, c3, c4, c5] = PadeOutcome.value v) :
    pade_prediction [k * c1, k * c2, k * c3, k * c4, k * c5] =
      PadeOutcome.value (k * v) := by
  obtain ⟨q1, q2, hq⟩ : ∃ q1 q2, solve2x2 (c3 / 6) (c2 / 2) (c4 / 24) (c3 / 6)
      (-(c4 / 24)) (-(c5 / 120)) = some (q1, q2) :=
    ⟨_, _, by rw [solve2x2, if_neg hns]⟩
  obtain ⟨h1, h2⟩ := solve2x2_solves _ _ _ _ _ _ _ _ hq
  rw [pade_prediction_eq_value c1 c2 c3 c4 c5 [] q1 q2 (by norm_num) hq,
    PadeOutcome.value.injEq] at hv
  have hns2 : k * c3 / 6 * (k * c3 / 6) - k * c2 / 2 * (k * c4 / 24) ≠ 0 := by
    have he : k * c3 / 6 * (k * c3 / 6) - k * c2 / 2 * (k * c4 / 24) =
        k ^ 2 * (c3 / 6 * (c3 / 6) - c2 / 2 * (c4 / 24)) := by ring
    rw [he]
    exact mul_ne_zero (pow_ne_zero 2 hk) hns
  rw [pade_prediction_eq_value (k * c1) (k * c2) (k * c3) (k * c4) (k * c5) []
    q1 q2 (by norm_num) (solve2x2_eq_of_solves _ _ _ _ _ _ q1 q2 hns2
      (by linear_combination k * h1) (by linear_combination k * h2))]
  simp only [PadeOutcome.value.injEq]
  rw [← hv]
  ring

/-- Witness for C4: doubling the input `[1, 2, 3, 4, 5]` (whose prediction
is `5`) gives prediction `2 * 5 = 10`. -/
theorem pade_prediction_scale_invariance_witness :
    pade_prediction (K := ℚ) [2 * 1, 2 * 2, 2 * 3, 2 * 4, 2 * 5] =
      PadeOutcome.value (2 * 5) :=
  pade_prediction_scale_invariance 2 1 2 3 4 5 5 (by norm_num) (by norm_num)
    (by
      rw [pade_prediction_eq_value (K := ℚ) 1 2 3 4 5 [] (-(1/2)) (1/12)
        (by norm_num) (by rw [solve2x2, if_neg (by norm_num)]; norm_num)]
      norm_num)

/-- Modelled from the spec: the general-N contract asserted by claim C5
for input length `N ≥ 5` (not what the code does).  In the spec's words the
estimator would solve the fixed `[2/2]` denominator system and then extend
the Taylor recurrence one term past the `N` known terms and invert the
Borel scaling: `b_{N+1} = -(q1*b_N + q2*b_{N-1})` and
`c_{N+1} = b_{N+1} * (N+1)!`.  The Borel loop model is shared with
`pade_prediction` (irrelevant at the six-element input it is compared
on). -/
def generalN_prediction (coeffs : List K) : PadeOutcome K :=
  let N := coeffs.length
  match borel coeffs with
  | none => PadeOutcome.raised
  | some b =>
      match b[1]?, b[2]?, b[3]?, b[4]?, b[N - 1]?, b[N - 2]? with
      | some b1, some b2, some b3, some b4, some bLast, some bPrev =>
          match solve2x2 b2 b1 b3 b2 (-b3) (-b4) with
          | some q => PadeOutcome.value (-(bLast * q.1 + bPrev * q.2) *
              (Nat.factorial (N + 1) : K))
          | none => PadeOutcome.nan
      | _, _, _, _, _, _ => PadeOutcome.raised

/-- C5 counterexample: on the six-term input `[1, 2, 3, 4, 5, 6]` the code
returns the fixed estimate `b6 * 6! = 5` computed from the first five
coefficients alone, while the general-N contract of the claim would return
`c7 = b7 * 7! = 7/2`. -/
theorem pade_prediction_generalN_counterexample :
    pade_prediction (K := ℚ) [1, 2, 3, 4, 5, 6] = PadeOutcome.value 5 ∧
    generalN_prediction (K := ℚ) [1, 2, 3, 4, 5, 6] =
      PadeOutcome.value (7 / 2) ∧
    PadeOutcome.value (5 : ℚ) ≠ PadeOutcome.value ((7 : ℚ) / 2) := by
  refine ⟨?_, ?_, by simp; norm_num⟩
  · rw [pade_prediction_eq_value (K := ℚ) 1 2 3 4 5 [6] (-(1/2)) (1/12)
      (by norm_num)
      (by rw [solve2x2, if_neg (by norm_num)]; norm_num)]
    norm_num
  · norm_num [generalN_prediction, borel, borelAux_cons_small, borelAux_nil,
      Option.map_some', solve2x2, List.getElem?_cons_succ,
      List.getElem?_cons_zero, Nat.factorial, List.length_cons,
      List.length_nil]

/-- C5 (amended): for every input of at least five and at most 170
coefficients the code solves the same fixed `[2/2]` system built from
`b2..b5` of the first five coefficients and returns
`-(q1*b5 + q2*b4) * 6!` — the estimated sixth coefficient
`c6 = b6 * 720` — regardless of the input length `N`; it never extends
the recurrence to `b_{N+1}` nor scales by `(N+1)!`.  (From 171
coefficients on, the Borel loop raises `OverflowError` before any solve;
see the C9 counterexample.) -/
theorem pade_prediction_fixed_order (c1 c2 c3 c4 c5 : K) (rest : List K)
    (q1 q2 : K) (hrest : rest.length ≤ 165)
    (hns : c3 / 6 * (c3 / 6) - c2 / 2 * (c4 / 24) ≠ 0)
    (hq1 : c3 / 6 * q1 + c2 / 2 * q2 = -(c4 / 24))
    (hq2 : c4 / 24 * q1 + c3 / 6 * q2 = -(c5 / 120)) :
    pade_prediction (c1 :: c2 :: c3 :: c4 :: c5 :: rest) =
      PadeOutcome.value (-(q1 * (c5 / 120) + q2 * (c4 / 24)) * 720) := by
  rw [pade_prediction_eq_value c1 c2 c3 c4 c5 rest q1 q2 hrest
    (solve2x2_eq_of_solves _ _ _ _ _ _ q1 q2 hns hq1 hq2)]
  simp only [PadeOutcome.value.injEq]
  ring

/-- Witness for the amended C5: a seven-term input still produces the fixed
`b6 * 720` estimate from the first five coefficients. -/
theorem pade_prediction_fixed_order_witness :
    pade_prediction (K := ℚ) (1 :: 2 :: 3 :: 4 :: 5 :: [6, 7]) =
      PadeOutcome.value (-((-(1/2) : ℚ) * ((5 : ℚ) / 120) +
        (1/12 : ℚ) * ((4 : ℚ) / 24)) * 720) :=
  pade_prediction_fixed_order 1 2 3 4 5 [6, 7] (-(1/2)) (1/12)
    (by norm_num) (by norm_num) (by norm_num) (by norm_num)

/-- C6: an input of fewer than five coefficients fails fast — the
`IndexError` from indexing `b` while the matrix is built escapes the
function (the construction happens before the `try` block), so no solve is
attempted and the outcome is `raised`, distinct from the NaN sentinel. -/
theorem pade_prediction_short_input_raises (coeffs : List K)
    (h : coeffs.length < 5) :
    pade_prediction coeffs = PadeOutcome.raised ∧
      (PadeOutcome.raised : PadeOutcome K) ≠ PadeOutcome.nan := by
  refine ⟨?_, by simp⟩
  rcases coeffs with _ | ⟨a, _ | ⟨b, _ | ⟨c, _ | ⟨d, _ | ⟨e, rest⟩⟩⟩⟩⟩
  · rfl
  · norm_num [pade_prediction, borel, borelAux_cons_small, borelAux_nil,
      Option.map_some', List.getElem?_cons_succ, List.getElem?_cons_zero]
  · norm_num [pade_prediction, borel, borelAux_cons_small, borelAux_nil,
      Option.map_some', List.getElem?_cons_succ, List.getElem?_cons_zero]
  · norm_num [pade_prediction, borel, borelAux_cons_small, borelAux_nil,
      Option.map_some', List.getElem?_cons_succ, List.getElem?_cons_zero]
  · norm_num [pade_prediction, borel, borelAux_cons_small, borelAux_nil,
      Option.map_some', List.getElem?_cons_succ, List.getElem?_cons_zero]
  · simp only [List.length_cons] at h
    omega

/-- Witness for C6: the three-element input ends in the raised outcome. -/
theorem pade_prediction_short_input_raises_witness :
    pade_prediction (K := ℚ) [1, 2, 3] = PadeOutcome.raised ∧
      (PadeOutcome.raised : PadeOutcome ℚ) ≠ PadeOutcome.nan :=
  pade_prediction_short_input_raises [1, 2, 3] (by norm_num)

/-- C9 counterexample: on 171 copies of `1.0` — finite floats, length at
least five — the Borel loop reaches `171!`, whose conversion to float
raises `OverflowError` outside the `try` block, so the call raises
instead of returning a number or the NaN sentinel. -/
theorem pade_prediction_overflow_counterexample :
    5 ≤ (List.replicate 171 (1 : ℚ)).length ∧
      pade_prediction (K := ℚ) (List.replicate 171 1) =
        PadeOutcome.raised := by
  constructor
  · rw [List.length_replicate]
    norm_num
  · rw [pade_prediction, borel_eq_none _ (by rw [List.length_replicate])]

/-- C9 (amended): for every input of at least five and at most 170
coefficients the call never lets an exception escape — every factorial in
the Borel loop converts, the matrix construction succeeds, and the solve
and recurrence sit inside the catch-all handler — so the outcome is a
returned number or the NaN sentinel, never `raised`.  From 171
coefficients on, the Borel loop raises `OverflowError` before the `try`
(see the counterexample). -/
theorem pade_prediction_no_raise_of_long (coeffs : List K)
    (h5 : 5 ≤ coeffs.length) (h170 : coeffs.length ≤ 170) :
    pade_prediction coeffs ≠ PadeOutcome.raised := by
  rcases coeffs with _ | ⟨a, _ | ⟨b, _ | ⟨c, _ | ⟨d, _ | ⟨e, rest⟩⟩⟩⟩⟩
  · simp at h5
  · simp only [List.length_cons, List.length_nil] at h5
    omega
  · simp only [List.length_cons, List.length_nil] at h5
    omega
  · simp only [List.length_cons, List.length_nil] at h5
    omega
  · simp only [List.length_cons, List.length_nil] at h5
    omega
  · have hrest : rest.length ≤ 165 := by
      simp only [List.length_cons] at h170
      omega
    by_cases hdet : c / 6 * (c / 6) - b / 2 * (d / 24) = 0
    · rw [pade_prediction_eq_nan a b c d e rest hrest
        (solve2x2_singular _ _ _ _ _ _ hdet)]
      simp
    · obtain ⟨q1, q2, hq⟩ : ∃ q1 q2, solve2x2 (c / 6) (b / 2) (d / 24) (c / 6)
          (-(d / 24)) (-(e / 120)) = some (q1, q2) :=
        ⟨_, _, by rw [solve2x2, if_neg hdet]⟩
      rw [pade_prediction_eq_value a b c d e rest q1 q2 hrest hq]
      simp

/-- Witness for the amended C9: a five-element input does not raise. -/
theorem pade_prediction_no_raise_of_long_witness :
    pade_prediction (K := ℚ) [1, 1, 1, 1, 1] ≠ PadeOutcome.raised :=
  pade_prediction_no_raise_of_long [1, 1, 1, 1, 1] (by norm_num) (by norm_num)

/-- C10 counterexample: the 171-element all-ones input raises by overflow
in the Borel loop, while its five-element prefix returns the value
`9/10` — the projection onto the first five coefficients fails beyond 170
elements. -/
theorem pade_prediction_take_overflow_counterexample :
    pade_prediction (K := ℚ) (List.replicate 171 1) = PadeOutcome.raised ∧
      pade_prediction (K := ℚ) ((List.replicate 171 (1 : ℚ)).take 5) =
        PadeOutcome.value (9 / 10) ∧
      (PadeOutcome.raised : PadeOutcome ℚ) ≠ PadeOutcome.value (9 / 10) := by
  refine ⟨?_, ?_, by simp⟩
  · rw [pade_prediction, borel_eq_none _ (by rw [List.length_replicate])]
  · have ht : (List.replicate 171 (1 : ℚ)).take 5 = [1, 1, 1, 1, 1] := rfl
    rw [ht, pade_prediction_eq_value (K := ℚ) 1 1 1 1 1 [] (-(2/5)) (1/20)
      (by norm_num)
      (by rw [solve2x2, if_neg (by norm_num)]; norm_num)]
    norm_num

/-- C10 (amended): for every input of more than five and at most 170
coefficients, coefficients after the fifth never influence the result —
the call returns exactly its value on the first five elements, and the
inverse-Borel factor stays `6! = 720`.  From 171 coefficients on the full
call raises in the Borel loop while the first five still produce a value
(see the counterexample). -/
theorem pade_prediction_first_five_only (coeffs : List K)
    (h5 : 5 < coeffs.length) (h170 : coeffs.length ≤ 170) :
    pade_prediction coeffs = pade_prediction (coeffs.take 5) := by
  rcases coeffs with _ | ⟨a, _ | ⟨b, _ | ⟨c, _ | ⟨d, _ | ⟨e, rest⟩⟩⟩⟩⟩
  · simp at h5
  · simp only [List.length_cons, List.length_nil] at h5
    omega
  · simp only [List.length_cons, List.length_nil] at h5
    omega
  · simp only [List.length_cons, List.length_nil] at h5
    omega
  · simp only [List.length_cons, List.length_nil] at h5
    omega
  · have hrest : rest.length ≤ 165 := by
      simp only [List.length_cons] at h170
      omega
    have ht : (a :: b :: c :: d :: e :: rest).take 5 = [a, b, c, d, e] := rfl
    rw [ht]
    by_cases hdet : c / 6 * (c / 6) - b / 2 * (d / 24) = 0
    · rw [pade_prediction_eq_nan a b c d e rest hrest
        (solve2x2_singular _ _ _ _ _ _ hdet),
        pade_prediction_eq_nan a b c d e [] (by norm_num)
        (solve2x2_singular _ _ _ _ _ _ hdet)]
    · obtain ⟨q1, q2, hq⟩ : ∃ q1 q2, solve2x2 (c / 6) (b / 2) (d / 24) (c / 6)
          (-(d / 24)) (-(e / 120)) = some (q1, q2) :=
        ⟨_, _, by rw [solve2x2, if_neg hdet]⟩
      rw [pade_prediction_eq_value a b c d e rest q1 q2 hrest hq,
        pade_prediction_eq_value a b c d e [] q1 q2 (by norm_num) hq]

/-- Witness for the amended C10: a six-element input returns the value of
its first five elements. -/
theorem pade_prediction_first_five_only_witness :
    pade_prediction (K := ℚ) [1, 2, 3, 4, 5, 9] =
      pade_prediction (K := ℚ) ([1, 2, 3, 4, 5, 9].take 5) :=
  pade_prediction_first_five_only [1, 2, 3, 4, 5, 9] (by norm_num)
    (by norm_num)

/-- C7 counterexample: at the concrete QED input
`c = [0.5, -0.328478965, 1.181241456, -1.912245764, 6.8]` the call returns
exactly `-160826097652613811967210879 / 7701933294456118675000000`
(about `-20.8813`); its magnitude exceeds the quoted `20.27` by more
than `0.61`, far beyond anything double-precision rounding could
account for. -/
theorem pade_prediction_qed_scenario_counterexample :
    pade_prediction (K := ℚ)
        [1 / 2, -328478965 / 1000000000, 1181241456 / 1000000000,
          -1912245764 / 1000000000, 68 / 10] =
      PadeOutcome.value
        (-160826097652613811967210879 / 7701933294456118675000000) ∧
    (3 : ℚ) / 5 <
      |(-160826097652613811967210879 / 7701933294456118675000000 : ℚ)| -
        2027 / 100 := by
  constructor
  · rw [pade_prediction_eq_value (K := ℚ) (1 / 2) (-328478965 / 1000000000)
      (1181241456 / 1000000000) (-1912245764 / 1000000000) (68 / 10) []
      (76552482774766032 / 308077331778244747)
      (-173079353669003519 / 924231995334734241)
      (by norm_num)
      (by rw [solve2x2, if_neg (by norm_num)]; norm_num)]
    norm_num
  · rw [abs_of_neg (by norm_num)]
    norm_num

/-- C7 (amended): at the concrete QED input the call returns the finite
value `-160826097652613811967210879 / 7701933294456118675000000`, whose
magnitude lies strictly between `20.88` and `20.89` (the `≈ 20.27`
magnitude printed by the source matches its `c5 = 6.602` scenario, not
the `c5 = 6.8` input named by the claim). -/
theorem pade_prediction_qed_scenario_value :
    pade_prediction (K := ℚ)
        [1 / 2, -328478965 / 1000000000, 1181241456 / 1000000000,
          -1912245764 / 1000000000, 68 / 10] =
      PadeOutcome.value
        (-160826097652613811967210879 / 7701933294456118675000000) ∧
    (2088 : ℚ) / 100 <
      |(-160826097652613811967210879 / 7701933294456118675000000 : ℚ)| ∧
    |(-160826097652613811967210879 / 7701933294456118675000000 : ℚ)| <
      2089 / 100 := by
  refine ⟨?_, ?_, ?_⟩
  · rw [pade_prediction_eq_value (K := ℚ) (1 / 2) (-328478965 / 1000000000)
      (1181241456 / 1000000000) (-1912245764 / 1000000000) (68 / 10) []
      (76552482774766032 / 308077331778244747)
      (-173079353669003519 / 924231995334734241)
      (by norm_num)
      (by rw [solve2x2, if_neg (by norm_num)]; norm_num)]
    norm_num
  · rw [abs_of_neg (by norm_num)]
    norm_num
  · rw [abs_of_neg (by norm_num)]
    norm_num

/-- Python-level state of a call to `pade_prediction`: the caller's
coefficient-list object plus the rest of the interpreter state (globals,
modules), abstracted as a type parameter.  Every statement of the source
body binds a fresh local (`b`, `A_mat`, `Y_vec`, `q`, `q1`, `q2`, `b6`,
`c6_pred`) and only reads `coeffs_list`; no statement assigns to an input
element, appends to or removes from the input list, or writes anything
outside the call — this holds on the raising paths too, which mutate
nothing before the exception escapes. -/
structure CallState (K σ : Type*) where
  coeffs_list : List K
  world : σ

/-- State-passing model of a call to `pade_prediction`: the body has no
mutating statement, so the embedding returns the caller state unchanged
next to the pure result. -/
def pade_prediction_call {σ : Type*} (st : CallState K σ) :
    PadeOutcome K × CallState K σ :=
  (pade_prediction st.coeffs_list, st)

/-- C8: a call leaves the input coefficient list unchanged element for
element, modifies no state outside the call, and its result is a function
of the input sequence alone. -/
theorem pade_prediction_pure {σ : Type*} (st : CallState K σ) :
    (pade_prediction_call st).2.coeffs_list = st.coeffs_list ∧
      (pade_prediction_call st).2.world = st.world ∧
      (pade_prediction_call st).1 = pade_prediction st.coeffs_list :=
  ⟨rfl, rfl, rfl⟩

end TeuPade
